import Mathlib

/-!
Verification of the microsleeps detector core.

Shallow embedding of the two core modules of the repository:

* `jetson_app/analysis/perclos_calculator.py` — the PERCLOS sliding-window
  accumulator and three-state classifier (`PERCLOSAnalyzer`);
* `jetson_app/camera/face_parser.py` — the real-time eye-aspect-ratio formula
  (`FaceParser.eye_aspect_ratio`);
* `testing/drowsiness.py` — the offline evaluation pipeline (`FaceAnalysis`,
  `DrowsinessDetector`, `ModelEvaluator`).

Python floats are modelled as exact rationals `ℚ`; the wall clock
(`time.time()`) is modelled as an explicit timestamp argument, which the wall
clock delivers in non-decreasing order; Python `None` results are modelled
with `Option`.
-/

namespace Microsleeps

/-- A facial landmark point, normalized `(x, y)` coordinates. -/
abbrev Point := ℚ × ℚ

/-- One entry of `PERCLOSAnalyzer.ear_history`: a `(timestamp, ear_value)`
pair, exactly as appended by `add_ear_measurement`. -/
abbrev EARSample := ℚ × ℚ

/-- The three driver states of `perclos_calculator.py`, stored there as the
strings `"Atento"`, `"Somnoliento"`, `"Microsueño"` (Attentive, Drowsy,
Microsleep). -/
inductive DriverState where
  | Atento
  | Somnoliento
  | Microsueno
deriving DecidableEq, Repr

/-- Severity order of the three states: Atento < Somnoliento < Microsueno. -/
def DriverState.rank : DriverState → ℕ
  | .Atento => 0
  | .Somnoliento => 1
  | .Microsueno => 2

/-- State of `PERCLOSAnalyzer` (`perclos_calculator.py`, `__init__`). -/
structure PERCLOSAnalyzer where
  window_seconds : ℚ
  ear_threshold : ℚ
  /-- The deque of `(timestamp, ear_value)` pairs, front first. -/
  ear_history : List EARSample
  perclos_warning_threshold : ℚ
  perclos_danger_threshold : ℚ
  current_perclos : ℚ
  current_state : DriverState
deriving DecidableEq, Repr

/-- `PERCLOSAnalyzer.__init__(window_seconds=30, ear_threshold=0.21)`: the
warning and danger thresholds are hard-coded to 0.15 and 0.40, the history is
empty, and the cached reading is `(0.0, "Atento")`. -/
def PERCLOSAnalyzer.init (window_seconds ear_threshold : ℚ) : PERCLOSAnalyzer :=
  { window_seconds := window_seconds
    ear_threshold := ear_threshold
    ear_history := []
    perclos_warning_threshold := 0.15
    perclos_danger_threshold := 0.40
    current_perclos := 0
    current_state := .Atento }

/-- The eviction loop of `add_ear_measurement`:
`while self.ear_history and self.ear_history[0][0] < cutoff_time:
self.ear_history.popleft()` — drops the longest front segment of samples whose
timestamp is strictly below the cutoff. -/
def evictOld (cutoff : ℚ) : List EARSample → List EARSample
  | [] => []
  | s :: rest => if s.1 < cutoff then evictOld cutoff rest else s :: rest

/-- `PERCLOSAnalyzer.add_ear_measurement(ear_value)`: appends
`(current_time, ear_value)` and then runs the front-eviction loop with
`cutoff_time = current_time - window_seconds`.  The source reads
`current_time` from `time.time()`; it is an explicit parameter here. -/
def PERCLOSAnalyzer.add_ear_measurement (a : PERCLOSAnalyzer)
    (ear_value current_time : ℚ) : PERCLOSAnalyzer :=
  { a with ear_history :=
              evictOld (current_time - a.window_seconds)
                (a.ear_history ++ [(current_time, ear_value)]) }

/-- `PERCLOSAnalyzer._update_state`: the threshold ladder on
`current_perclos` (danger first, then warning, else attentive). -/
def PERCLOSAnalyzer.update_state (a : PERCLOSAnalyzer) : PERCLOSAnalyzer :=
  { a with current_state :=
              if a.perclos_danger_threshold ≤ a.current_perclos then DriverState.Microsueno
              else if a.perclos_warning_threshold ≤ a.current_perclos then DriverState.Somnoliento
              else DriverState.Atento }

/-- `PERCLOSAnalyzer.calculate_perclos`: with fewer than 2 samples it returns
`0.0` at once (leaving every field, in particular the cached
`current_perclos` and `current_state`, untouched); otherwise it stores
`closed_count / total_count` in `current_perclos`, refreshes `current_state`
and returns the stored value.  Returns the pair (returned value, new state of
the mutated object). -/
def PERCLOSAnalyzer.calculate_perclos (a : PERCLOSAnalyzer) : ℚ × PERCLOSAnalyzer :=
  if a.ear_history.length < 2 then (0, a)
  else
    let closed_count := (a.ear_history.filter fun s => decide (s.2 < a.ear_threshold)).length
    let total_count := a.ear_history.length
    let perclos := if 0 < total_count then (closed_count : ℚ) / (total_count : ℚ) else 0
    let a' := PERCLOSAnalyzer.update_state { a with current_perclos := perclos }
    (a'.current_perclos, a')

/-- The dictionary returned by `PERCLOSAnalyzer.get_state`. -/
structure StateInfo where
  state : DriverState
  perclos : ℚ
  perclos_percentage : ℚ
  is_warning : Bool
  is_danger : Bool
  samples_in_window : ℕ
  window_seconds : ℚ
deriving DecidableEq, Repr

/-- `PERCLOSAnalyzer.get_state`: a read-only snapshot of the cached reading. -/
def PERCLOSAnalyzer.get_state (a : PERCLOSAnalyzer) : StateInfo :=
  { state := a.current_state
    perclos := a.current_perclos
    perclos_percentage := a.current_perclos * 100
    is_warning := decide (a.perclos_warning_threshold ≤ a.current_perclos)
    is_danger := decide (a.perclos_danger_threshold ≤ a.current_perclos)
    samples_in_window := a.ear_history.length
    window_seconds := a.window_seconds }

/-- The state classifier `classify(p)` of the spec: `_update_state` applied to
an analyzer holding percentage `p`, with the thresholds `__init__` hard-codes
(warning 0.15, danger 0.40). -/
def classify (p : ℚ) : DriverState :=
  (PERCLOSAnalyzer.update_state
    { PERCLOSAnalyzer.init 30 0.21 with current_perclos := p }).current_state

/-- A whole session of `add_ear_measurement` calls: each measurement is an
`(ear_value, timestamp)` pair, applied in order. -/
def runMeasurements (a : PERCLOSAnalyzer) : List (ℚ × ℚ) → PERCLOSAnalyzer
  | [] => a
  | m :: rest => runMeasurements (a.add_ear_measurement m.1 m.2) rest

/-- Timestamp order on measurements: the wall clock is non-decreasing. -/
def tsLE (m m' : ℚ × ℚ) : Prop := m.2 ≤ m'.2

instance : IsTrans (ℚ × ℚ) tsLE := ⟨fun _ _ _ h h' => le_trans h h'⟩

instance (m m' : ℚ × ℚ) : Decidable (tsLE m m') :=
  inferInstanceAs (Decidable (m.2 ≤ m'.2))

/-- Timestamp sortedness of a history list (front = oldest). -/
def histSorted (l : List EARSample) : Prop :=
  List.Pairwise (fun p q : EARSample => p.1 ≤ q.1) l

/-- The real-time EAR formula of `FaceParser.eye_aspect_ratio`
(`face_parser.py` lines 37–40) as a function of the three Euclidean
distances it computes: `A = |p1-p5|`, `B = |p2-p4|`, `C = |p0-p3|`, and then
`ear = (A + B) / C` with **no** guard on `C`.  When `C = 0`, numpy float
division produces a non-finite value (`inf`, or `nan` when `A + B = 0`),
never a finite EAR; that outcome is modelled as `none`. -/
def eye_aspect_ratio (A B C : ℚ) : Option ℚ :=
  if C = 0 then none else some ((A + B) / C)

/-- The evaluation-side EAR formula of `FaceAnalysis._calculate_ear`
(`drowsiness.py` lines 117–120) as a function of the two vertical distances
and the horizontal distance: `(v1 + v2) / (2·h)` when `h > 0`, else `0.0`. -/
def calculate_ear_formula (vertical_1 vertical_2 horizontal : ℚ) : ℚ :=
  if 0 < horizontal then (vertical_1 + vertical_2) / (2 * horizontal) else 0

/-- The record `AnalysisResult` of `drowsiness.py`.  `inference_time_ms`
is a wall-clock duration, outside the embedding; it is fixed to `0`. -/
structure AnalysisResult where
  ear_left : ℚ
  ear_right : ℚ
  ear_average : ℚ
  eyes_closed : Bool
  inference_time_ms : ℚ
deriving DecidableEq, Repr

/-- Mutable state of `FaceAnalysis` (`drowsiness.py`, `__init__`):
two configuration scalars and the optional EMA accumulator. -/
structure FaceAnalysis where
  ear_closed_threshold : ℚ
  ear_smoothing_alpha : ℚ
  ear_avg_ema : Option ℚ
deriving DecidableEq, Repr

/-- `FaceAnalysis.__init__(ear_closed_threshold=0.10, ear_smoothing_alpha=0.3)`
with `ear_avg_ema = None`. -/
def FaceAnalysis.init (ear_closed_threshold ear_smoothing_alpha : ℚ) : FaceAnalysis :=
  { ear_closed_threshold := ear_closed_threshold
    ear_smoothing_alpha := ear_smoothing_alpha
    ear_avg_ema := none }

/-- `FaceAnalysis._calculate_ear(points, left)`: resolves the six MediaPipe
indices for the requested eye and applies `calculate_ear_formula` to the
three distances.  The source computes Euclidean distances via
`np.sqrt`, an irrational-valued operation that leaves `ℚ`; the distance
function `dist` is therefore a parameter of the embedding, and every theorem
below holds for an arbitrary `dist` — in particular for the Euclidean one.
The source indexes `points[i]` directly; `update` guards
`len(points) > 387`, so every referenced index is in range there, and the
out-of-range default `(0, 0)` of `getD` is never consulted on guarded
calls. -/
def FaceAnalysis.calculate_ear (dist : Point → Point → ℚ)
    (points : List Point) (left : Bool) : ℚ :=
  let p1_idx : ℕ := if left then 33 else 263
  let p4_idx : ℕ := if left then 133 else 362
  let p2_idx : ℕ := if left then 160 else 387
  let p6_idx : ℕ := if left then 144 else 373
  let p3_idx : ℕ := if left then 158 else 385
  let p5_idx : ℕ := if left then 153 else 380
  let vertical_1 := dist (points.getD p2_idx (0, 0)) (points.getD p6_idx (0, 0))
  let vertical_2 := dist (points.getD p3_idx (0, 0)) (points.getD p5_idx (0, 0))
  let horizontal := dist (points.getD p1_idx (0, 0)) (points.getD p4_idx (0, 0))
  calculate_ear_formula vertical_1 vertical_2 horizontal

/-- The EMA block of `FaceAnalysis.update` (`drowsiness.py` lines 78–83),
the Signal Smoother of the spec: if `ear_avg_ema` is unset it becomes the
input, else it moves by `alpha · (x − current)`; the new value is stored and
returned. -/
def FaceAnalysis.smoother_update (fa : FaceAnalysis) (x : ℚ) : ℚ × FaceAnalysis :=
  let newVal :=
    match fa.ear_avg_ema with
    | none => x
    | some v => v + fa.ear_smoothing_alpha * (x - v)
  (newVal, { fa with ear_avg_ema := some newVal })

/-- The smoother reset: `ear_avg_ema = None` (as `DrowsinessDetector.detect`
performs before each image, `drowsiness.py` line 196). -/
def FaceAnalysis.smoother_reset (fa : FaceAnalysis) : FaceAnalysis :=
  { fa with ear_avg_ema := none }

/-- `FaceAnalysis.update(points)`: returns `None` without touching any state
when `len(points) <= 387`; otherwise computes both raw EARs, their average,
smooths it, classifies `eyes_closed = smoothed < ear_closed_threshold`, and
returns the populated `AnalysisResult`.  Returns the pair (result, new state
of the mutated object). -/
def FaceAnalysis.update (dist : Point → Point → ℚ) (fa : FaceAnalysis)
    (points : List Point) : Option AnalysisResult × FaceAnalysis :=
  if points.length ≤ 387 then (none, fa)
  else
    let left_ear := FaceAnalysis.calculate_ear dist points true
    let right_ear := FaceAnalysis.calculate_ear dist points false
    let avg_ear := (left_ear + right_ear) / 2
    let s := fa.smoother_update avg_ear
    let ear_smoothed := s.1
    let eyes_closed := decide (ear_smoothed < fa.ear_closed_threshold)
    (some { ear_left := left_ear
            ear_right := right_ear
            ear_average := ear_smoothed
            eyes_closed := eyes_closed
            inference_time_ms := 0 },
     s.2)

/-- The landmark-dependent tail of `DrowsinessDetector.detect`
(`drowsiness.py` lines 192–201): once MediaPipe (external) has produced the
landmark points of an image, the detector sets `ear_avg_ema = None` and runs
`FaceAnalysis.update`.  The earlier branches of `detect` (unreadable image,
no face found) return `None` before this point and are the `none` detections
consumed by the evaluator below. -/
def DrowsinessDetector.detect (dist : Point → Point → ℚ) (fa : FaceAnalysis)
    (points : List Point) : Option AnalysisResult × FaceAnalysis :=
  FaceAnalysis.update dist fa.smoother_reset points

namespace ModelEvaluator

/-- One dataset image as the evaluation loop of `ModelEvaluator.evaluate`
sees it: its ground-truth label (`True` = Drowsy) paired with the outcome of
`detector.detect` on it (`none` = failed detection). -/
abbrev Detection := Bool × Option AnalysisResult

/-- The per-image loop of `ModelEvaluator.evaluate` (`drowsiness.py` lines
288–301): on a failed detection it appends `False` to `predicted_labels` and
bumps `failed_count`; otherwise it appends `result.eyes_closed`.  Returns
(`predicted_labels`, `failed_count`). -/
def evaluate_loop : List Detection → List Bool × ℕ
  | [] => ([], 0)
  | d :: rest =>
    let r := evaluate_loop rest
    match d.2 with
    | none => (false :: r.1, r.2 + 1)
    | some res => (res.eyes_closed :: r.1, r.2)

/-- `true_labels` as stored by `evaluate`: one ground-truth label per image,
failed detections included. -/
def y_true (ds : List Detection) : List Bool := ds.map Prod.fst

/-- `predicted_labels` as stored by `evaluate`. -/
def y_pred (ds : List Detection) : List Bool := (evaluate_loop ds).1

/-- True positives of the run: images labelled Drowsy and predicted Drowsy
(`cm[1,1]` of the sklearn confusion matrix, which counts label pairs). -/
def TP (ds : List Detection) : ℕ :=
  ((y_true ds).zip (y_pred ds)).countP fun p => p.1 && p.2

/-- False positives: labelled Non-Drowsy, predicted Drowsy (`cm[0,1]`). -/
def FP (ds : List Detection) : ℕ :=
  ((y_true ds).zip (y_pred ds)).countP fun p => !p.1 && p.2

/-- False negatives: labelled Drowsy, predicted Non-Drowsy (`cm[1,0]`). -/
def FN (ds : List Detection) : ℕ :=
  ((y_true ds).zip (y_pred ds)).countP fun p => p.1 && !p.2

/-- True negatives: labelled Non-Drowsy, predicted Non-Drowsy (`cm[0,0]`). -/
def TN (ds : List Detection) : ℕ :=
  ((y_true ds).zip (y_pred ds)).countP fun p => !p.1 && !p.2

/-- `accuracy_score(y_true, y_pred)` of sklearn (external library), by its
documented definition: the fraction of positions where prediction and truth
agree. -/
def accuracy (ds : List Detection) : ℚ :=
  ((((y_true ds).zip (y_pred ds)).countP fun p => p.1 == p.2 : ℕ) : ℚ) /
    ((y_true ds).length : ℚ)

end ModelEvaluator

/-! ### Lemmas about the eviction loop and measurement sessions -/

theorem evictOld_suffix (c : ℚ) (l : List EARSample) : evictOld c l <:+ l := by
  induction l with
  | nil => simp [evictOld]
  | cons s rest ih =>
    by_cases h : s.1 < c
    · simpa [evictOld, h] using ih.trans (List.suffix_cons s rest)
    · simp [evictOld, h]

theorem evictOld_ge (c : ℚ) (l : List EARSample) (hl : histSorted l) :
    ∀ p ∈ evictOld c l, c ≤ p.1 := by
  induction l with
  | nil => simp [evictOld]
  | cons s rest ih =>
    rcases List.pairwise_cons.mp hl with ⟨hs, hrest⟩
    by_cases h : s.1 < c
    · simpa [evictOld, h] using ih hrest
    · intro p hp
      rw [evictOld, if_neg h] at hp
      rcases List.mem_cons.mp hp with rfl | hp'
      · exact not_lt.mp h
      · exact le_trans (not_lt.mp h) (hs p hp')

theorem evictOld_mem (c : ℚ) (l : List EARSample) (p : EARSample)
    (hp : p ∈ l) (hge : c ≤ p.1) : p ∈ evictOld c l := by
  induction l with
  | nil => simp at hp
  | cons s rest ih =>
    by_cases h : s.1 < c
    · rw [evictOld, if_pos h]
      rcases List.mem_cons.mp hp with rfl | hp'
      · exact absurd hge (not_le.mpr h)
      · exact ih hp'
    · rwa [evictOld, if_neg h]

theorem evictOld_sorted (c : ℚ) (l : List EARSample) (hl : histSorted l) :
    histSorted (evictOld c l) :=
  List.Pairwise.sublist (evictOld_suffix c l).sublist hl

theorem add_ear_measurement_hist (a : PERCLOSAnalyzer) (v t : ℚ) :
    (a.add_ear_measurement v t).ear_history =
      evictOld (t - a.window_seconds) (a.ear_history ++ [(t, v)]) := rfl

theorem add_ear_measurement_sorted (a : PERCLOSAnalyzer) (v t : ℚ)
    (h1 : histSorted a.ear_history) (h2 : ∀ p ∈ a.ear_history, p.1 ≤ t) :
    histSorted (a.add_ear_measurement v t).ear_history := by
  apply evictOld_sorted
  rw [histSorted, List.pairwise_append]
  refine ⟨h1, by simp, ?_⟩
  intro p hp q hq
  rcases List.mem_singleton.mp hq with rfl
  exact h2 p hp

theorem runMeasurements_append (l₁ l₂ : List (ℚ × ℚ)) (a : PERCLOSAnalyzer) :
    runMeasurements a (l₁ ++ l₂) = runMeasurements (runMeasurements a l₁) l₂ := by
  induction l₁ generalizing a with
  | nil => rfl
  | cons m rest ih => simpa [runMeasurements] using ih _

theorem runMeasurements_window (ms : List (ℚ × ℚ)) (a : PERCLOSAnalyzer) :
    (runMeasurements a ms).window_seconds = a.window_seconds := by
  induction ms generalizing a with
  | nil => rfl
  | cons m rest ih => simpa [runMeasurements] using ih _

theorem runMeasurements_hist_mem (ms : List (ℚ × ℚ)) (a : PERCLOSAnalyzer) :
    ∀ p ∈ (runMeasurements a ms).ear_history,
      p ∈ a.ear_history ∨ (p.2, p.1) ∈ ms := by
  induction ms generalizing a with
  | nil => intro p hp; exact Or.inl hp
  | cons m rest ih =>
    intro p hp
    rcases ih _ p hp with h | h
    · have hsub := (evictOld_suffix _ _).subset h
      rcases List.mem_append.mp hsub with h' | h'
      · exact Or.inl h'
      · rcases List.mem_singleton.mp h' with rfl
        exact Or.inr (List.mem_cons_self _ _)
    · exact Or.inr (List.mem_cons_of_mem _ h)

theorem runMeasurements_sorted (ms : List (ℚ × ℚ)) (a : PERCLOSAnalyzer)
    (h1 : histSorted a.ear_history)
    (h2 : ∀ p ∈ a.ear_history, ∀ m ∈ ms, p.1 ≤ m.2)
    (h3 : List.Pairwise tsLE ms) :
    histSorted (runMeasurements a ms).ear_history := by
  induction ms generalizing a with
  | nil => exact h1
  | cons m rest ih =>
    rcases List.pairwise_cons.mp h3 with ⟨hm, hrest⟩
    refine ih _ ?_ ?_ hrest
    · exact add_ear_measurement_sorted a m.1 m.2 h1
        (fun p hp => h2 p hp m (List.mem_cons_self _ _))
    · intro p hp m' hm'
      have hsub := (evictOld_suffix _ _).subset hp
      rcases List.mem_append.mp hsub with h' | h'
      · exact h2 p h' m' (List.mem_cons_of_mem _ hm')
      · rcases List.mem_singleton.mp h' with rfl
        exact hm m' hm'

/-! ### Claim theorems -/

/-- Claim C1: for every session of `add_ear_measurement` calls whose
timestamps arrive in non-decreasing order, immediately after each call the
window (i) retains no sample whose timestamp is strictly below the latest
inserted timestamp minus `window_seconds`, (ii) is a suffix of the previous
window with the new sample appended — samples leave only at the front and
are never reordered — and (iii) still holds every appended sample lying at
or above the cutoff, so a sample exactly at the cutoff is retained. -/
theorem perclos_window_eviction (w th : ℚ) (ms pre : List (ℚ × ℚ)) (v t : ℚ)
    (hmono : List.Chain' tsLE ms)
    (hpre : pre ++ [(v, t)] <+: ms) :
    (∀ p ∈ (runMeasurements (PERCLOSAnalyzer.init w th) (pre ++ [(v, t)])).ear_history,
        t - w ≤ p.1) ∧
    (runMeasurements (PERCLOSAnalyzer.init w th) (pre ++ [(v, t)])).ear_history <:+
      (runMeasurements (PERCLOSAnalyzer.init w th) pre).ear_history ++ [(t, v)] ∧
    (∀ p ∈ (runMeasurements (PERCLOSAnalyzer.init w th) pre).ear_history ++ [(t, v)],
        t - w ≤ p.1 →
        p ∈ (runMeasurements (PERCLOSAnalyzer.init w th) (pre ++ [(v, t)])).ear_history) := by
  have hpw : List.Pairwise tsLE (pre ++ [(v, t)]) :=
    List.Pairwise.sublist hpre.sublist (List.chain'_iff_pairwise.mp hmono)
  rcases List.pairwise_append.mp hpw with ⟨hpre_pw, _, hcross⟩
  have hcross' : ∀ m ∈ pre, m.2 ≤ t := fun m hm =>
    hcross m hm (v, t) (List.mem_singleton_self _)
  have happ : runMeasurements (PERCLOSAnalyzer.init w th) (pre ++ [(v, t)]) =
      (runMeasurements (PERCLOSAnalyzer.init w th) pre).add_ear_measurement v t := by
    rw [runMeasurements_append]; rfl
  have hw : (runMeasurements (PERCLOSAnalyzer.init w th) pre).window_seconds = w :=
    runMeasurements_window pre _
  have hhist_le : ∀ p ∈ (runMeasurements (PERCLOSAnalyzer.init w th) pre).ear_history,
      p.1 ≤ t := by
    intro p hp
    rcases runMeasurements_hist_mem pre _ p hp with h | h
    · simp [PERCLOSAnalyzer.init] at h
    · exact hcross' _ h
  have hsorted : histSorted (runMeasurements (PERCLOSAnalyzer.init w th) pre).ear_history :=
    runMeasurements_sorted pre _ (by simp [PERCLOSAnalyzer.init, histSorted])
      (by simp [PERCLOSAnalyzer.init]) hpre_pw
  have happ_sorted :
      histSorted ((runMeasurements (PERCLOSAnalyzer.init w th) pre).ear_history ++ [(t, v)]) := by
    rw [histSorted, List.pairwise_append]
    refine ⟨hsorted, by simp, ?_⟩
    intro p hp q hq
    rcases List.mem_singleton.mp hq with rfl
    exact hhist_le p hp
  refine ⟨?_, ?_, ?_⟩
  · intro p hp
    rw [happ, add_ear_measurement_hist, hw] at hp
    exact evictOld_ge _ _ happ_sorted p hp
  · rw [happ, add_ear_measurement_hist]
    exact evictOld_suffix _ _
  · intro p hp hge
    rw [happ, add_ear_measurement_hist, hw]
    exact evictOld_mem _ _ p hp hge

/-- Witness for C1: a concrete three-measurement session with window 10:
after the second call (timestamp 1) both samples are inside the window, the
window is a suffix of the appended history, and the sample at exactly the
cutoff boundary is retained. -/
theorem perclos_window_eviction_witness :
    List.Chain' tsLE [(1, 0), (1, 1), (3, 11)] ∧
    ([(1, 0)] ++ [((1 : ℚ), (1 : ℚ))]) <+: [(1, 0), (1, 1), (3, 11)] ∧
    ((∀ p ∈ (runMeasurements (PERCLOSAnalyzer.init 10 2) ([(1, 0)] ++ [(1, 1)])).ear_history,
        (1 : ℚ) - 10 ≤ p.1) ∧
    (runMeasurements (PERCLOSAnalyzer.init 10 2) ([(1, 0)] ++ [(1, 1)])).ear_history <:+
      (runMeasurements (PERCLOSAnalyzer.init 10 2) [(1, 0)]).ear_history ++ [(1, 1)] ∧
    (∀ p ∈ (runMeasurements (PERCLOSAnalyzer.init 10 2) [(1, 0)]).ear_history ++ [((1 : ℚ), (1 : ℚ))],
        (1 : ℚ) - 10 ≤ p.1 →
        p ∈ (runMeasurements (PERCLOSAnalyzer.init 10 2) ([(1, 0)] ++ [(1, 1)])).ear_history)) :=
  ⟨by norm_num [List.chain'_cons, List.chain'_singleton, tsLE], ⟨[(3, 11)], by decide⟩,
    perclos_window_eviction 10 2 [(1, 0), (1, 1), (3, 11)] [(1, 0)] 1 1
      (by norm_num [List.chain'_cons, List.chain'_singleton, tsLE]) ⟨[(3, 11)], by decide⟩⟩

theorem classify_eq (r : ℚ) :
    classify r = if (0.40 : ℚ) ≤ r then DriverState.Microsueno
      else if (0.15 : ℚ) ≤ r then DriverState.Somnoliento
      else DriverState.Atento := by
  simp [classify, PERCLOSAnalyzer.update_state, PERCLOSAnalyzer.init]

/-- Claim C2: the state classifier is a pure, deterministic, monotone step
function of the window percentage with exact boundary semantics —
`p ≥ 0.40` gives Microsleep, `0.15 ≤ p < 0.40` gives Drowsy, `p < 0.15`
gives Attentive — including the six boundary probes of the spec. -/
theorem classify_step_function (p q : ℚ) (hpq : p ≤ q) :
    ((0.40 : ℚ) ≤ p → classify p = DriverState.Microsueno) ∧
    ((0.15 : ℚ) ≤ p → p < 0.40 → classify p = DriverState.Somnoliento) ∧
    (p < (0.15 : ℚ) → classify p = DriverState.Atento) ∧
    (classify p).rank ≤ (classify q).rank ∧
    classify 0 = DriverState.Atento ∧
    classify 0.14999 = DriverState.Atento ∧
    classify 0.15 = DriverState.Somnoliento ∧
    classify 0.39999 = DriverState.Somnoliento ∧
    classify 0.40 = DriverState.Microsueno ∧
    classify 1 = DriverState.Microsueno := by
  refine ⟨?_, ?_, ?_, ?_, ?_, ?_, ?_, ?_, ?_, ?_⟩
  · intro h; rw [classify_eq, if_pos h]
  · intro h1 h2; rw [classify_eq, if_neg (by linarith), if_pos h1]
  · intro h; rw [classify_eq, if_neg (by linarith), if_neg (by linarith)]
  · rw [classify_eq, classify_eq]
    split_ifs with h1 h2 h3 h4 h5 h6 <;>
      simp [DriverState.rank] <;> linarith
  · rw [classify_eq]; norm_num
  · rw [classify_eq]; norm_num
  · rw [classify_eq]; norm_num
  · rw [classify_eq]; norm_num
  · rw [classify_eq]; norm_num
  · rw [classify_eq]; norm_num

/-- Witness for C2 at `p = 0.2 ≤ q = 0.5`: the Drowsy branch fires at `p`,
the severity rank is monotone across the pair, and all six boundary probes
hold. -/
theorem classify_step_function_witness :
    (((0.40 : ℚ) ≤ (0.2 : ℚ) → classify 0.2 = DriverState.Microsueno) ∧
    ((0.15 : ℚ) ≤ (0.2 : ℚ) → (0.2 : ℚ) < 0.40 → classify 0.2 = DriverState.Somnoliento) ∧
    ((0.2 : ℚ) < (0.15 : ℚ) → classify 0.2 = DriverState.Atento) ∧
    (classify 0.2).rank ≤ (classify 0.5).rank ∧
    classify 0 = DriverState.Atento ∧
    classify 0.14999 = DriverState.Atento ∧
    classify 0.15 = DriverState.Somnoliento ∧
    classify 0.39999 = DriverState.Somnoliento ∧
    classify 0.40 = DriverState.Microsueno ∧
    classify 1 = DriverState.Microsueno) ∧
    classify 0.2 = DriverState.Somnoliento :=
  ⟨classify_step_function 0.2 0.5 (by norm_num),
    by rw [classify_eq]; norm_num⟩

/-- Claim C3: `calculate_perclos` always returns a value in `[0, 1]`;
it returns exactly `0.0` when fewer than 2 samples are present, and
otherwise returns `closed_count / total_count`, where `closed_count`
counts the samples whose value is strictly below `ear_threshold`. -/
theorem calculate_perclos_range (a : PERCLOSAnalyzer) :
    0 ≤ a.calculate_perclos.1 ∧ a.calculate_perclos.1 ≤ 1 ∧
    (a.ear_history.length < 2 → a.calculate_perclos.1 = 0) ∧
    (2 ≤ a.ear_history.length →
      a.calculate_perclos.1 =
        ((a.ear_history.filter fun s => decide (s.2 < a.ear_threshold)).length : ℚ) /
          (a.ear_history.length : ℚ)) := by
  by_cases h : a.ear_history.length < 2
  · refine ⟨?_, ?_, fun _ => ?_, fun h' => absurd h' (by omega)⟩ <;>
      simp [PERCLOSAnalyzer.calculate_perclos, h]
  · have hpos : 0 < a.ear_history.length := by omega
    have hval : a.calculate_perclos.1 =
        ((a.ear_history.filter fun s => decide (s.2 < a.ear_threshold)).length : ℚ) /
          (a.ear_history.length : ℚ) := by
      simp [PERCLOSAnalyzer.calculate_perclos, h, PERCLOSAnalyzer.update_state, hpos]
    have hle : (a.ear_history.filter fun s => decide (s.2 < a.ear_threshold)).length ≤
        a.ear_history.length := List.length_filter_le _ _
    refine ⟨?_, ?_, fun h' => absurd h' (by omega), fun _ => hval⟩
    · rw [hval]
      exact div_nonneg (by positivity) (by positivity)
    · rw [hval]
      rw [div_le_one (by exact_mod_cast hpos)]
      exact_mod_cast hle

/-- Witness for C3: a window holding samples `(t=0, ear=1)` and `(t=1, ear=3)`
against threshold 2 — two samples, so the fraction branch applies. -/
theorem calculate_perclos_range_witness :
    0 ≤ (PERCLOSAnalyzer.mk 30 2 [(0, 1), (1, 3)] 0.15 0.40 0 .Atento).calculate_perclos.1 ∧
    (PERCLOSAnalyzer.mk 30 2 [(0, 1), (1, 3)] 0.15 0.40 0 .Atento).calculate_perclos.1 ≤ 1 ∧
    ((PERCLOSAnalyzer.mk 30 2 [(0, 1), (1, 3)] 0.15 0.40 0 .Atento).ear_history.length < 2 →
      (PERCLOSAnalyzer.mk 30 2 [(0, 1), (1, 3)] 0.15 0.40 0 .Atento).calculate_perclos.1 = 0) ∧
    (2 ≤ (PERCLOSAnalyzer.mk 30 2 [(0, 1), (1, 3)] 0.15 0.40 0 .Atento).ear_history.length →
      (PERCLOSAnalyzer.mk 30 2 [(0, 1), (1, 3)] 0.15 0.40 0 .Atento).calculate_perclos.1 =
        (((PERCLOSAnalyzer.mk 30 2 [(0, 1), (1, 3)] 0.15 0.40 0 .Atento).ear_history.filter
            fun s => decide (s.2 < (PERCLOSAnalyzer.mk 30 2 [(0, 1), (1, 3)] 0.15 0.40 0
              .Atento).ear_threshold)).length : ℚ) /
          ((PERCLOSAnalyzer.mk 30 2 [(0, 1), (1, 3)] 0.15 0.40 0 .Atento).ear_history.length : ℚ)) :=
  calculate_perclos_range (PERCLOSAnalyzer.mk 30 2 [(0, 1), (1, 3)] 0.15 0.40 0 .Atento)

/-- Claim C5: on the same three distances with `C > 0`, the real-time module
returns `(A+B)/C` while the evaluation module returns `(A+B)/(2·C)`: the
real-time value is exactly twice the evaluation value, and (whenever the
numerator is non-zero) the two formulas genuinely disagree. -/
theorem ear_formula_factor_two (A B C : ℚ) (hC : 0 < C) :
    eye_aspect_ratio A B C = some ((A + B) / C) ∧
    calculate_ear_formula A B C = (A + B) / (2 * C) ∧
    (A + B) / C = 2 * ((A + B) / (2 * C)) ∧
    (A + B ≠ 0 → (A + B) / C ≠ (A + B) / (2 * C)) := by
  have hCne : C ≠ 0 := ne_of_gt hC
  refine ⟨by simp [eye_aspect_ratio, hCne], by simp [calculate_ear_formula, hC], ?_, ?_⟩
  · field_simp; ring
  · intro hAB heq
    rw [div_eq_div_iff hCne (mul_ne_zero two_ne_zero hCne)] at heq
    rcases mul_eq_zero.mp (show (A + B) * C = 0 by linear_combination heq) with h | h
    · exact hAB h
    · exact hCne h

/-- Witness for C5 at `A = 2, B = 1, C = 1`: the real-time EAR is 3, the
evaluation EAR is 3/2, twice as small, and the two differ. -/
theorem ear_formula_factor_two_witness :
    (0 : ℚ) < 1 ∧
    (eye_aspect_ratio 2 1 1 = some ((2 + 1) / 1) ∧
    calculate_ear_formula 2 1 1 = (2 + 1) / (2 * 1) ∧
    ((2 : ℚ) + 1) / 1 = 2 * (((2 : ℚ) + 1) / (2 * 1)) ∧
    ((2 : ℚ) + 1 ≠ 0 → ((2 : ℚ) + 1) / 1 ≠ ((2 : ℚ) + 1) / (2 * 1))) :=
  ⟨by norm_num, ear_formula_factor_two 2 1 1 (by norm_num)⟩

/-- Counterexample to claim C4 as stated: the real-time module
(`FaceParser.eye_aspect_ratio`) does **not** return `0.0` when the
horizontal corner-to-corner distance is `0` — with distances `A = 1`,
`B = 1`, `C = 0` (e.g. both eye corner landmarks mapped to the same pixel)
the unguarded division `(A + B) / C` yields a non-finite float, not `0.0`. -/
theorem ear_zero_guard_counterexample :
    eye_aspect_ratio 1 1 0 = none ∧ eye_aspect_ratio 1 1 0 ≠ some 0 := by
  constructor <;> simp [eye_aspect_ratio]

/-- Claim C4 (amended): for all nonnegative distances, the evaluation
module EAR (`FaceAnalysis._calculate_ear`) is always `≥ 0` and returns
exactly `0.0` when the horizontal distance is `0`; the real-time module
EAR (`FaceParser.eye_aspect_ratio`) is `(A+B)/C ≥ 0` whenever `C > 0`, but
at `C = 0` it performs an unguarded division and produces a non-finite
value rather than `0.0`. -/
theorem ear_zero_guard_amended (A B C v1 v2 h : ℚ)
    (hA : 0 ≤ A) (hB : 0 ≤ B) (hv1 : 0 ≤ v1) (hv2 : 0 ≤ v2) :
    (C = 0 → eye_aspect_ratio A B C = none) ∧
    (0 < C → eye_aspect_ratio A B C = some ((A + B) / C) ∧ 0 ≤ (A + B) / C) ∧
    0 ≤ calculate_ear_formula v1 v2 h ∧
    (h = 0 → calculate_ear_formula v1 v2 h = 0) := by
  refine ⟨?_, ?_, ?_, ?_⟩
  · intro hC; simp [eye_aspect_ratio, hC]
  · intro hC
    exact ⟨by simp [eye_aspect_ratio, ne_of_gt hC],
      div_nonneg (by linarith) (le_of_lt hC)⟩
  · rw [calculate_ear_formula]
    split_ifs with hh
    · exact div_nonneg (by linarith) (by linarith)
    · exact le_refl 0
  · intro hh; simp [calculate_ear_formula, hh]

/-- Witness for the amended C4 at distances `A = 1, B = 1, C = 2` and
`v1 = 1, v2 = 1, h = 0`. -/
theorem ear_zero_guard_amended_witness :
    (((2 : ℚ) = 0 → eye_aspect_ratio 1 1 2 = none) ∧
    ((0 : ℚ) < 2 → eye_aspect_ratio 1 1 2 = some (((1 : ℚ) + 1) / 2) ∧
      (0 : ℚ) ≤ ((1 : ℚ) + 1) / 2) ∧
    (0 : ℚ) ≤ calculate_ear_formula 1 1 0 ∧
    ((0 : ℚ) = 0 → calculate_ear_formula 1 1 0 = 0)) :=
  ear_zero_guard_amended 1 1 2 1 1 0 (by norm_num) (by norm_num)
    (by norm_num) (by norm_num)

/-- Counterexample to claim C6 as stated: a reachable trace on which
`get_state` does **not** reflect the value `calculate_perclos` just
returned.  Feed ears `0.1, 0.1` at seconds `0, 1` (window 30s, threshold
0.21) and calculate: PERCLOS `1.0`, state Microsueño.  Feed ear `0.3` at
second `100`: both old samples are evicted, one sample remains.  The next
`calculate_perclos` returns `0.0` through the `< 2` early return, which
skips the cache update: `get_state` still reports PERCLOS `1.0` and state
Microsueño, while the call just returned `0.0` (whose classification is
Atento). -/
theorem get_state_cache_counterexample :
    ((((PERCLOSAnalyzer.init 30 0.21).add_ear_measurement 0.1 0).add_ear_measurement 0.1
        1).calculate_perclos.2.add_ear_measurement 0.3 100).calculate_perclos.2.get_state.perclos ≠
      ((((PERCLOSAnalyzer.init 30 0.21).add_ear_measurement 0.1 0).add_ear_measurement 0.1
        1).calculate_perclos.2.add_ear_measurement 0.3 100).calculate_perclos.1 ∧
    ((((PERCLOSAnalyzer.init 30 0.21).add_ear_measurement 0.1 0).add_ear_measurement 0.1
        1).calculate_perclos.2.add_ear_measurement 0.3 100).calculate_perclos.1 = 0 ∧
    ((((PERCLOSAnalyzer.init 30 0.21).add_ear_measurement 0.1 0).add_ear_measurement 0.1
        1).calculate_perclos.2.add_ear_measurement 0.3 100).calculate_perclos.2.get_state.perclos
      = 1 ∧
    ((((PERCLOSAnalyzer.init 30 0.21).add_ear_measurement 0.1 0).add_ear_measurement 0.1
        1).calculate_perclos.2.add_ear_measurement 0.3 100).calculate_perclos.2.get_state.state
      = DriverState.Microsueno ∧
    classify 0 = DriverState.Atento := by
  refine ⟨?_, ?_, ?_, ?_, ?_⟩ <;>
    norm_num [PERCLOSAnalyzer.init, PERCLOSAnalyzer.add_ear_measurement,
      PERCLOSAnalyzer.calculate_perclos, PERCLOSAnalyzer.update_state,
      PERCLOSAnalyzer.get_state, evictOld, List.filter, classify_eq]

/-- Claim C6 (amended): when at least 2 samples are in the window,
`calculate_perclos` caches what it returns — the following `get_state`
reports exactly the returned percentage and its classification — and the
cache survives `add_ear_measurement` untouched, so the reading persists
until the next `add_measurement`+`calculate` pair.  When fewer than 2
samples are present, however, the call returns `0.0` while leaving the
previously cached percentage and state in place. -/
theorem get_state_cache_amended (a : PERCLOSAnalyzer) (v t : ℚ)
    (hw : a.perclos_warning_threshold = 0.15)
    (hd : a.perclos_danger_threshold = 0.40) :
    (2 ≤ a.ear_history.length →
      a.calculate_perclos.2.get_state.perclos = a.calculate_perclos.1 ∧
      a.calculate_perclos.2.get_state.state = classify a.calculate_perclos.1) ∧
    (a.ear_history.length < 2 →
      a.calculate_perclos.2 = a ∧ a.calculate_perclos.1 = 0) ∧
    (a.add_ear_measurement v t).current_perclos = a.current_perclos ∧
    (a.add_ear_measurement v t).current_state = a.current_state := by
  refine ⟨?_, ?_, rfl, rfl⟩
  · intro h2
    have hnl : ¬a.ear_history.length < 2 := by omega
    have hpos : 0 < a.ear_history.length := by omega
    constructor
    · simp [PERCLOSAnalyzer.calculate_perclos, hnl, PERCLOSAnalyzer.update_state,
        PERCLOSAnalyzer.get_state, hpos]
    · simp [PERCLOSAnalyzer.calculate_perclos, hnl, PERCLOSAnalyzer.update_state,
        PERCLOSAnalyzer.get_state, hpos, classify_eq, hw, hd]
  · intro h
    simp [PERCLOSAnalyzer.calculate_perclos, h]

/-- Witness for the amended C6: the two-sample window built by feeding ears
`0.1, 0.3` at seconds `0, 1` into a fresh analyzer; the next measurement is
`(0.5, 2)`. -/
theorem get_state_cache_amended_witness :
    (2 ≤ (((PERCLOSAnalyzer.init 30 0.21).add_ear_measurement 0.1
        0).add_ear_measurement 0.3 1).ear_history.length →
      (((PERCLOSAnalyzer.init 30 0.21).add_ear_measurement 0.1
        0).add_ear_measurement 0.3 1).calculate_perclos.2.get_state.perclos =
        (((PERCLOSAnalyzer.init 30 0.21).add_ear_measurement 0.1
          0).add_ear_measurement 0.3 1).calculate_perclos.1 ∧
      (((PERCLOSAnalyzer.init 30 0.21).add_ear_measurement 0.1
        0).add_ear_measurement 0.3 1).calculate_perclos.2.get_state.state =
        classify (((PERCLOSAnalyzer.init 30 0.21).add_ear_measurement 0.1
          0).add_ear_measurement 0.3 1).calculate_perclos.1) ∧
    ((((PERCLOSAnalyzer.init 30 0.21).add_ear_measurement 0.1
        0).add_ear_measurement 0.3 1).ear_history.length < 2 →
      (((PERCLOSAnalyzer.init 30 0.21).add_ear_measurement 0.1
        0).add_ear_measurement 0.3 1).calculate_perclos.2 =
        ((PERCLOSAnalyzer.init 30 0.21).add_ear_measurement 0.1
          0).add_ear_measurement 0.3 1 ∧
      (((PERCLOSAnalyzer.init 30 0.21).add_ear_measurement 0.1
        0).add_ear_measurement 0.3 1).calculate_perclos.1 = 0) ∧
    ((((PERCLOSAnalyzer.init 30 0.21).add_ear_measurement 0.1
        0).add_ear_measurement 0.3 1).add_ear_measurement 0.5 2).current_perclos =
      (((PERCLOSAnalyzer.init 30 0.21).add_ear_measurement 0.1
        0).add_ear_measurement 0.3 1).current_perclos ∧
    ((((PERCLOSAnalyzer.init 30 0.21).add_ear_measurement 0.1
        0).add_ear_measurement 0.3 1).add_ear_measurement 0.5 2).current_state =
      (((PERCLOSAnalyzer.init 30 0.21).add_ear_measurement 0.1
        0).add_ear_measurement 0.3 1).current_state :=
  get_state_cache_amended
    (((PERCLOSAnalyzer.init 30 0.21).add_ear_measurement 0.1 0).add_ear_measurement 0.3 1)
    0.5 2 rfl rfl

/-- Claim C7: when the landmark list does not reach past the highest
referenced eye index (387), `FaceAnalysis.update` returns `None` and leaves
the analysis state — in particular the EMA accumulator — untouched; any
longer list always produces a result. -/
theorem update_insufficient_landmarks (dist : Point → Point → ℚ)
    (fa : FaceAnalysis) (points : List Point) :
    (points.length ≤ 387 → FaceAnalysis.update dist fa points = (none, fa)) ∧
    (387 < points.length → ((FaceAnalysis.update dist fa points).1).isSome = true) := by
  constructor
  · intro h; simp [FaceAnalysis.update, h]
  · intro h
    simp [FaceAnalysis.update, show ¬(points.length ≤ 387) by omega]

/-- Witness for C7: a 10-point list (too short) is rejected with the state
unchanged, and a 388-point list produces a result. -/
theorem update_insufficient_landmarks_witness :
    (((List.replicate 10 ((0 : ℚ), (0 : ℚ))).length ≤ 387 →
      FaceAnalysis.update (fun _ _ => 0) (FaceAnalysis.init 0.10 0.3)
        (List.replicate 10 ((0 : ℚ), (0 : ℚ))) = (none, FaceAnalysis.init 0.10 0.3)) ∧
    (387 < (List.replicate 10 ((0 : ℚ), (0 : ℚ))).length →
      ((FaceAnalysis.update (fun _ _ => 0) (FaceAnalysis.init 0.10 0.3)
        (List.replicate 10 ((0 : ℚ), (0 : ℚ)))).1).isSome = true)) ∧
    (((List.replicate 388 ((0 : ℚ), (0 : ℚ))).length ≤ 387 →
      FaceAnalysis.update (fun _ _ => 0) (FaceAnalysis.init 0.10 0.3)
        (List.replicate 388 ((0 : ℚ), (0 : ℚ))) = (none, FaceAnalysis.init 0.10 0.3)) ∧
    (387 < (List.replicate 388 ((0 : ℚ), (0 : ℚ))).length →
      ((FaceAnalysis.update (fun _ _ => 0) (FaceAnalysis.init 0.10 0.3)
        (List.replicate 388 ((0 : ℚ), (0 : ℚ)))).1).isSome = true)) :=
  ⟨update_insufficient_landmarks (fun _ _ => 0) (FaceAnalysis.init 0.10 0.3) _,
    update_insufficient_landmarks (fun _ _ => 0) (FaceAnalysis.init 0.10 0.3) _⟩

/-- Claim C8: after a reset the next smoother update returns its input
exactly (for every smoothing factor) and stores it; when a current value `v`
is set, the update returns `v + alpha·(x − v)` and stores that as the new
current value. -/
theorem smoother_update_spec (fa : FaceAnalysis) (x v : ℚ) :
    (fa.smoother_reset.smoother_update x).1 = x ∧
    (fa.smoother_reset.smoother_update x).2.ear_avg_ema = some x ∧
    (fa.ear_avg_ema = some v →
      (fa.smoother_update x).1 = v + fa.ear_smoothing_alpha * (x - v) ∧
      (fa.smoother_update x).2.ear_avg_ema =
        some (v + fa.ear_smoothing_alpha * (x - v))) := by
  refine ⟨?_, ?_, ?_⟩
  · simp [FaceAnalysis.smoother_update, FaceAnalysis.smoother_reset]
  · simp [FaceAnalysis.smoother_update, FaceAnalysis.smoother_reset]
  · intro h
    constructor <;> simp [FaceAnalysis.smoother_update, h]

/-- Witness for C8: a smoother with stored value 2 and alpha 1/2 updated
with input 4 returns 3 and stores 3; after a reset, updating with 4 returns
4 for the same alpha. -/
theorem smoother_update_spec_witness :
    ((FaceAnalysis.mk 1 (1/2) (some 2)).smoother_reset.smoother_update 4).1 = 4 ∧
    ((FaceAnalysis.mk 1 (1/2) (some 2)).smoother_reset.smoother_update 4).2.ear_avg_ema = some 4 ∧
    ((FaceAnalysis.mk 1 (1/2) (some 2)).ear_avg_ema = some 2 →
      ((FaceAnalysis.mk 1 (1/2) (some 2)).smoother_update 4).1 =
        2 + (FaceAnalysis.mk 1 (1/2) (some 2)).ear_smoothing_alpha * (4 - 2) ∧
      ((FaceAnalysis.mk 1 (1/2) (some 2)).smoother_update 4).2.ear_avg_ema =
        some (2 + (FaceAnalysis.mk 1 (1/2) (some 2)).ear_smoothing_alpha * (4 - 2))) :=
  smoother_update_spec (FaceAnalysis.mk 1 (1/2) (some 2)) 4 2

/-- Claim C10: batch per-image detection is memoryless.  `detect` clears the
EMA before analysing, so two detectors with the same configuration produce
identical results on the same landmark points regardless of their previous
EMA state; and the produced result carries the raw (unsmoothed) average EAR
and compares it directly against the closed-eye threshold. -/
theorem detect_memoryless (dist : Point → Point → ℚ) (fa fa' : FaceAnalysis)
    (points : List Point)
    (hth : fa.ear_closed_threshold = fa'.ear_closed_threshold)
    (_hal : fa.ear_smoothing_alpha = fa'.ear_smoothing_alpha) :
    (DrowsinessDetector.detect dist fa points).1 =
      (DrowsinessDetector.detect dist fa' points).1 ∧
    (387 < points.length →
      (DrowsinessDetector.detect dist fa points).1 =
        some { ear_left := FaceAnalysis.calculate_ear dist points true
               ear_right := FaceAnalysis.calculate_ear dist points false
               ear_average := (FaceAnalysis.calculate_ear dist points true +
                  FaceAnalysis.calculate_ear dist points false) / 2
               eyes_closed := decide ((FaceAnalysis.calculate_ear dist points true +
                  FaceAnalysis.calculate_ear dist points false) / 2 < fa.ear_closed_threshold)
               inference_time_ms := 0 }) := by
  constructor
  · by_cases h : points.length ≤ 387
    · simp [DrowsinessDetector.detect, FaceAnalysis.update, FaceAnalysis.smoother_reset, h]
    · simp [DrowsinessDetector.detect, FaceAnalysis.update, FaceAnalysis.smoother_reset,
        FaceAnalysis.smoother_update, h, hth]
  · intro h
    simp [DrowsinessDetector.detect, FaceAnalysis.update, FaceAnalysis.smoother_reset,
      FaceAnalysis.smoother_update, show ¬(points.length ≤ 387) by omega]

/-- Witness for C10: two detector states with equal configuration but
different remembered EMA values (none versus 5) give the same detection
output on a concrete 388-point image. -/
theorem detect_memoryless_witness :
    ((DrowsinessDetector.detect (fun _ _ => 1) (FaceAnalysis.mk 1 (1/2) none)
        (List.replicate 388 ((0 : ℚ), (0 : ℚ)))).1 =
      (DrowsinessDetector.detect (fun _ _ => 1) (FaceAnalysis.mk 1 (1/2) (some 5))
        (List.replicate 388 ((0 : ℚ), (0 : ℚ)))).1) ∧
    (387 < (List.replicate 388 ((0 : ℚ), (0 : ℚ))).length →
      (DrowsinessDetector.detect (fun _ _ => 1) (FaceAnalysis.mk 1 (1/2) none)
        (List.replicate 388 ((0 : ℚ), (0 : ℚ)))).1 =
        some { ear_left := FaceAnalysis.calculate_ear (fun _ _ => 1)
                  (List.replicate 388 ((0 : ℚ), (0 : ℚ))) true
               ear_right := FaceAnalysis.calculate_ear (fun _ _ => 1)
                  (List.replicate 388 ((0 : ℚ), (0 : ℚ))) false
               ear_average := (FaceAnalysis.calculate_ear (fun _ _ => 1)
                  (List.replicate 388 ((0 : ℚ), (0 : ℚ))) true +
                  FaceAnalysis.calculate_ear (fun _ _ => 1)
                    (List.replicate 388 ((0 : ℚ), (0 : ℚ))) false) / 2
               eyes_closed := decide ((FaceAnalysis.calculate_ear (fun _ _ => 1)
                  (List.replicate 388 ((0 : ℚ), (0 : ℚ))) true +
                  FaceAnalysis.calculate_ear (fun _ _ => 1)
                    (List.replicate 388 ((0 : ℚ), (0 : ℚ))) false) / 2 <
                  (FaceAnalysis.mk 1 (1/2) none).ear_closed_threshold)
               inference_time_ms := 0 }) :=
  detect_memoryless (fun _ _ => 1) (FaceAnalysis.mk 1 (1/2) none)
    (FaceAnalysis.mk 1 (1/2) (some 5)) (List.replicate 388 ((0 : ℚ), (0 : ℚ))) rfl rfl

namespace ModelEvaluator

theorem evaluate_loop_length (ds : List Detection) :
    (evaluate_loop ds).1.length = ds.length := by
  induction ds with
  | nil => rfl
  | cons d rest ih =>
    rcases d with ⟨b, o⟩
    cases o <;> simp [evaluate_loop, ih]

theorem evaluate_loop_failed (ds : List Detection) :
    (evaluate_loop ds).2 = (ds.filter fun d => d.2.isNone).length := by
  induction ds with
  | nil => rfl
  | cons d rest ih =>
    rcases d with ⟨b, o⟩
    cases o <;> simp [evaluate_loop, ih]

theorem evaluate_loop_none_false (ds : List Detection) :
    ∀ pr ∈ ds.zip (evaluate_loop ds).1, pr.1.2 = none → pr.2 = false := by
  induction ds with
  | nil => simp
  | cons d rest ih =>
    rcases d with ⟨b, o⟩
    cases o with
    | none =>
      intro pr hpr
      rcases List.mem_cons.mp (by simpa [evaluate_loop] using hpr) with rfl | h
      · intro; rfl
      · exact ih pr h
    | some r =>
      intro pr hpr
      rcases List.mem_cons.mp (by simpa [evaluate_loop] using hpr) with rfl | h
      · intro hco; cases hco
      · exact ih pr h

theorem countP_partition (l : List (Bool × Bool)) :
    l.countP (fun p => p.1 && p.2) + l.countP (fun p => !p.1 && p.2) +
      l.countP (fun p => p.1 && !p.2) + l.countP (fun p => !p.1 && !p.2) =
      l.length := by
  induction l with
  | nil => rfl
  | cons p rest ih =>
    rcases p with ⟨a, b⟩
    cases a <;> cases b <;> simp [List.countP_cons] <;> omega

theorem countP_agree (l : List (Bool × Bool)) :
    l.countP (fun p => p.1 == p.2) =
      l.countP (fun p => p.1 && p.2) + l.countP (fun p => !p.1 && !p.2) := by
  induction l with
  | nil => rfl
  | cons p rest ih =>
    rcases p with ⟨a, b⟩
    cases a <;> cases b <;> simp [List.countP_cons] <;> omega

/-- Claim C9: in a batch run, every failed detection is predicted
`False` ("not drowsy") and counted in `failed_count`; every image — failed
detections included — contributes exactly one predicted label, so
`TP + FP + FN + TN` equals the total number of images processed and the
sklearn accuracy equals `(TP + TN) / total`. -/
theorem evaluate_metrics_consistency (ds : List Detection) :
    (evaluate_loop ds).1.length = ds.length ∧
    (∀ pr ∈ ds.zip (evaluate_loop ds).1, pr.1.2 = none → pr.2 = false) ∧
    (evaluate_loop ds).2 = (ds.filter fun d => d.2.isNone).length ∧
    TP ds + FP ds + FN ds + TN ds = ds.length ∧
    accuracy ds = ((TP ds + TN ds : ℕ) : ℚ) / (ds.length : ℚ) := by
  have hzip : ((y_true ds).zip (y_pred ds)).length = ds.length := by
    rw [List.length_zip, y_true, y_pred, List.length_map, evaluate_loop_length]
    exact min_self _
  refine ⟨evaluate_loop_length ds, evaluate_loop_none_false ds, evaluate_loop_failed ds, ?_, ?_⟩
  · rw [TP, FP, FN, TN, ← hzip]
    exact countP_partition _
  · rw [accuracy, countP_agree, TP, TN, y_true, List.length_map]

/-- Witness for C9: a three-image run — a drowsy image correctly detected,
a non-drowsy image correctly detected, and a failed detection on a drowsy
image — has labels of length 3, one failed count, `TP+FP+FN+TN = 3` and
accuracy `(TP+TN)/3`. -/
theorem evaluate_metrics_consistency_witness :
    (evaluate_loop [(true, some (AnalysisResult.mk 1 1 1 true 0)),
        (false, some (AnalysisResult.mk 1 1 1 false 0)), (true, none)]).1.length =
      ([(true, some (AnalysisResult.mk 1 1 1 true 0)),
        (false, some (AnalysisResult.mk 1 1 1 false 0)), (true, none)] :
          List Detection).length ∧
    (∀ pr ∈ ([(true, some (AnalysisResult.mk 1 1 1 true 0)),
        (false, some (AnalysisResult.mk 1 1 1 false 0)), (true, none)] :
          List Detection).zip
        (evaluate_loop [(true, some (AnalysisResult.mk 1 1 1 true 0)),
          (false, some (AnalysisResult.mk 1 1 1 false 0)), (true, none)]).1,
      pr.1.2 = none → pr.2 = false) ∧
    (evaluate_loop [(true, some (AnalysisResult.mk 1 1 1 true 0)),
        (false, some (AnalysisResult.mk 1 1 1 false 0)), (true, none)]).2 =
      (([(true, some (AnalysisResult.mk 1 1 1 true 0)),
        (false, some (AnalysisResult.mk 1 1 1 false 0)), (true, none)] :
          List Detection).filter fun d => d.2.isNone).length ∧
    TP [(true, some (AnalysisResult.mk 1 1 1 true 0)),
        (false, some (AnalysisResult.mk 1 1 1 false 0)), (true, none)] +
      FP [(true, some (AnalysisResult.mk 1 1 1 true 0)),
        (false, some (AnalysisResult.mk 1 1 1 false 0)), (true, none)] +
      FN [(true, some (AnalysisResult.mk 1 1 1 true 0)),
        (false, some (AnalysisResult.mk 1 1 1 false 0)), (true, none)] +
      TN [(true, some (AnalysisResult.mk 1 1 1 true 0)),
        (false, some (AnalysisResult.mk 1 1 1 false 0)), (true, none)] =
      ([(true, some (AnalysisResult.mk 1 1 1 true 0)),
        (false, some (AnalysisResult.mk 1 1 1 false 0)), (true, none)] :
          List Detection).length ∧
    accuracy [(true, some (AnalysisResult.mk 1 1 1 true 0)),
        (false, some (AnalysisResult.mk 1 1 1 false 0)), (true, none)] =
      ((TP [(true, some (AnalysisResult.mk 1 1 1 true 0)),
          (false, some (AnalysisResult.mk 1 1 1 false 0)), (true, none)] +
        TN [(true, some (AnalysisResult.mk 1 1 1 true 0)),
          (false, some (AnalysisResult.mk 1 1 1 false 0)), (true, none)] : ℕ) : ℚ) /
        (([(true, some (AnalysisResult.mk 1 1 1 true 0)),
          (false, some (AnalysisResult.mk 1 1 1 false 0)), (true, none)] :
            List Detection).length : ℚ) :=
  evaluate_metrics_consistency [(true, some (AnalysisResult.mk 1 1 1 true 0)),
    (false, some (AnalysisResult.mk 1 1 1 false 0)), (true, none)]

end ModelEvaluator

end Microsleeps
